import Mathlib

set_option maxRecDepth 40000

/-
  Shallow embedding of the Resito backend network-scanning and smart-login
  services (src/backend/services/network-scan.ts and
  src/backend/services/smart-router-ai.ts), together with theorems about
  router discovery, endpoint probing, credential testing and the smart
  login flow.

  Runtime effects (fetch, JSON.parse, the process environment, wall-clock
  time) are modelled as oracle inputs; each embedded function is a pure
  function of its oracle.  A thrown JS exception is modelled with the
  Except monad, and a try/catch block whose handler returns normally is
  modelled by jsCatch.
-/

/-- Error codes carried by node-fetch / Node system errors that the source
inspects (error.code), plus certificate-validation failure codes for HTTPS
and a marker for errors with no relevant code. -/
inductive JsErrorCode where
  | econnrefused
  | econnreset
  | ehostunreach
  | certSelfSigned
  | certExpired
  | noCode
deriving DecidableEq

/-- A thrown JS error as the source observes it: error.name (for example
AbortError on timeout), error.code and error.message. -/
structure JsError where
  name : String
  code : JsErrorCode
  message : String
deriving DecidableEq

/-- An HTTP response as consumed by the source: status, the text of the
body, and the two response headers the source reads. -/
structure FetchResponse where
  status : Nat
  body : String
  serverHeader : Option String := none
  wwwAuthenticate : Option String := none
deriving DecidableEq

/-- JS truthiness of headers.get(...): null and the empty string are falsy. -/
def jsTruthy : Option String → Bool
  | none => false
  | some s => s != ""

/-- Whether needle is a leading run of hay (character-exact). -/
def charsPrefix : List Char → List Char → Bool
  | [], _ => true
  | _ :: _, [] => false
  | a :: as, b :: bs => a == b && charsPrefix as bs

/-- Whether needle occurs contiguously anywhere in hay. -/
def charsFind (needle : List Char) : List Char → Bool
  | [] => charsPrefix needle []
  | c :: rest => charsPrefix needle (c :: rest) || charsFind needle rest

/-- JS String.prototype.includes: substring containment. -/
def jsIncludes (hay needle : String) : Bool :=
  charsFind needle.data hay.data

/-- JS String.prototype.toLowerCase on the character list (the tokens the
source compares against are ASCII). -/
def jsToLower (s : String) : String := String.mk (s.data.map Char.toLower)

/-- Model of a try/catch whose catch block returns normally: the result is
never a propagated exception. -/
def jsCatch {α : Type} (body : Except JsError α) (handler : JsError → α) : Except JsError α :=
  match body with
  | Except.ok a => Except.ok a
  | Except.error e => Except.ok (handler e)

namespace NetworkScanService

/-- DiscoveredRouter from network-scan.ts: fields absent on the
inaccessible path are modelled as none. -/
structure DiscoveredRouter where
  ipAddress : String
  isAccessible : Bool
  responseTime : Option Nat := none
  detectedBrand : Option String := none
  authRequired : Option Bool := none
  supportedProtocols : Option (List String) := none
deriving DecidableEq

/-- NetworkScanOptions from network-scan.ts; all fields optional. -/
structure NetworkScanOptions where
  timeout : Option Nat := none
  retries : Option Nat := none
  includeExtended : Option Bool := none
deriving DecidableEq

/-- COMMON_ROUTER_IPS: the curated, priority-ordered candidate list. -/
def COMMON_ROUTER_IPS : List String :=
  ["192.168.1.1", "192.168.0.1", "10.0.0.1", "192.168.2.1", "192.168.1.254",
   "192.168.0.254", "192.168.10.1", "192.168.100.1", "172.16.1.1", "192.168.3.1",
   "192.168.11.1", "10.0.1.1", "10.1.1.1", "192.168.8.1", "192.168.4.1"]

/-- EXTENDED_IPS: the extended scan list. -/
def EXTENDED_IPS : List String :=
  ["192.168.1.2", "192.168.1.10", "192.168.1.100",
   "192.168.0.2", "192.168.0.10", "192.168.0.100",
   "10.0.0.2", "10.0.0.10", "10.0.0.100",
   "172.16.0.1", "172.16.0.10",
   "192.168.5.1", "192.168.6.1", "192.168.7.1",
   "192.168.9.1", "192.168.20.1", "192.168.50.1"]

/-- Oracle for one testIP call: the HEAD fetch outcome per protocol index
(0 = http, 1 = https) and 1-based attempt number, the brand-detection GET
outcome per protocol index, and the elapsed wall-clock milliseconds.  A
timeout surfaces as an AbortError in the fetch outcome, so the timeout
option has no further semantic effect in the model. -/
structure ProbeOracle where
  fetchHead : Nat → Nat → Except JsError FetchResponse
  fetchGet : Nat → Except JsError FetchResponse
  elapsedMs : Nat

/-- Brand detection from the lowercased server header
(analyzeRouterResponse, first chain). -/
def detectBrandFromServer (server : String) : Option String :=
  if jsIncludes server "linksys" then some "Linksys"
  else if jsIncludes server "netgear" then some "Netgear"
  else if jsIncludes server "d-link" then some "D-Link"
  else if jsIncludes server "tplink" || jsIncludes server "tp-link" then some "TP-Link"
  else if jsIncludes server "asus" then some "ASUS"
  else if jsIncludes server "belkin" then some "Belkin"
  else if jsIncludes server "airport" then some "Apple"
  else if jsIncludes server "cisco" then some "Cisco"
  else if jsIncludes server "huawei" then some "Huawei"
  else if jsIncludes server "mikrotik" then some "MikroTik"
  else none

/-- Brand detection from the lowercased body of the follow-up GET
(analyzeRouterResponse, second chain). -/
def detectBrandFromBody (bodyLower : String) : Option String :=
  if jsIncludes bodyLower "linksys" then some "Linksys"
  else if jsIncludes bodyLower "netgear" then some "Netgear"
  else if jsIncludes bodyLower "d-link" then some "D-Link"
  else if jsIncludes bodyLower "tp-link" || jsIncludes bodyLower "tplink" then some "TP-Link"
  else if jsIncludes bodyLower "asus" then some "ASUS"
  else if jsIncludes bodyLower "airport" then some "Apple"
  else none

/-- analyzeRouterResponse: brand from the server header, else (when no
brand and status 200) from a follow-up GET whose errors are ignored;
authRequired from status 401 or a truthy www-authenticate header. -/
def analyzeRouterResponse (fullGet : Except JsError FetchResponse) (resp : FetchResponse) :
    Option String × Bool :=
  let server := (resp.serverHeader.map jsToLower).getD ""
  let headerBrand := detectBrandFromServer server
  let brand :=
    if headerBrand.isNone && resp.status == 200 then
      match fullGet with
      | Except.ok full => detectBrandFromBody (jsToLower full.body)
      | Except.error _ => none
    else headerBrand
  (brand, resp.status == 401 || jsTruthy resp.wwwAuthenticate)

/-- The attempt loop of testIP for one protocol: attempts are numbered
from the given start, at most remaining fetches happen, a sub-500 response
ends the loop with that response, connection-refused and host-unreachable
end the loop early with no response, and every other error (timeout,
reset, certificate failure, anything else) lets the loop continue to the
next attempt.  Returns the accepted response (if any) and the number of
fetches issued. -/
def attemptLoop (fetch : Nat → Except JsError FetchResponse) :
    Nat → Nat → Option FetchResponse × Nat
  | _, 0 => (none, 0)
  | attempt, remaining + 1 =>
    match fetch attempt with
    | Except.ok resp =>
      if resp.status < 500 then (some resp, 1)
      else
        let r := attemptLoop fetch (attempt + 1) remaining
        (r.1, r.2 + 1)
    | Except.error e =>
      if e.code == JsErrorCode.econnrefused || e.code == JsErrorCode.ehostunreach then
        (none, 1)
      else
        let r := attemptLoop fetch (attempt + 1) remaining
        (r.1, r.2 + 1)

/-- The accessible result testIP builds from an accepted response. -/
def accessibleResult (o : ProbeOracle) (ip : String) (protoIdx : Nat) (protoName : String)
    (resp : FetchResponse) : DiscoveredRouter :=
  let info := analyzeRouterResponse (o.fetchGet protoIdx) resp
  { ipAddress := ip
    isAccessible := true
    responseTime := some o.elapsedMs
    detectedBrand := info.1
    authRequired := some info.2
    supportedProtocols := some [protoName] }

/-- testIP with instrumentation: the DiscoveredRouter it returns plus the
number of HEAD fetches issued on http and on https.  Protocols are tried
in order http then https; https is only tried when http produced no
sub-500 response; when neither does, the inaccessible record is returned
(every caught error is folded into it, never rethrown). -/
def testIPRun (o : ProbeOracle) (ip : String) (options : NetworkScanOptions) :
    DiscoveredRouter × Nat × Nat :=
  let retries := options.retries.getD 1
  let httpTry := attemptLoop (o.fetchHead 0) 1 retries
  match httpTry.1 with
  | some resp => (accessibleResult o ip 0 "http" resp, httpTry.2, 0)
  | none =>
    let httpsTry := attemptLoop (o.fetchHead 1) 1 retries
    match httpsTry.1 with
    | some resp => (accessibleResult o ip 1 "https" resp, httpTry.2, httpsTry.2)
    | none => ({ ipAddress := ip, isAccessible := false }, httpTry.2, httpsTry.2)

/-- testIP: the returned DiscoveredRouter. -/
def testIP (o : ProbeOracle) (ip : String) (options : NetworkScanOptions) : DiscoveredRouter :=
  (testIPRun o ip options).1

/-- testConnection: isAccessible of testIP, with the try/catch folding a
rejection to false (testIP itself never rejects in the model, mirroring
that every fetch error in testIP is caught internally). -/
def testConnection (o : ProbeOracle) (ip : String) (options : NetworkScanOptions) : Bool :=
  (testIP o ip options).isAccessible

/-- The Except-level semantics of testIP: its promise never rejects,
every transport error having been caught inside the attempt loop. -/
def testIPE (o : ProbeOracle) (ip : String) (options : NetworkScanOptions) :
    Except JsError DiscoveredRouter :=
  Except.ok (testIP o ip options)

/-- The Except-level semantics of testConnection: the body awaits testIP
and the catch returns false on any rejection. -/
def testConnectionE (o : ProbeOracle) (ip : String) (options : NetworkScanOptions) :
    Except JsError Bool :=
  jsCatch ((testIPE o ip options).map DiscoveredRouter.isAccessible) (fun _ => false)

/-- Per-run discovery oracle: an independent probe oracle per candidate
address. -/
structure DiscoveryOracle where
  probe : String → ProbeOracle

/-- Options discoverRouter passes to testIP for the curated list:
the destructured timeout and retries. -/
def curatedProbeOpts (options : NetworkScanOptions) : NetworkScanOptions :=
  { timeout := some (options.timeout.getD 3000)
    retries := some (options.retries.getD 1) }

/-- Options discoverRouter passes to testIP for the extended list:
half the timeout and retries fixed at 1. -/
def extendedProbeOpts (options : NetworkScanOptions) : NetworkScanOptions :=
  { timeout := some (options.timeout.getD 3000 / 2)
    retries := some 1 }

/-- The sequential candidate loop of discoverRouter: test each address in
order and return the first accessible result. -/
def scanList (t : String → DiscoveredRouter) : List String → Option DiscoveredRouter
  | [] => none
  | ip :: rest =>
    let result := t ip
    if result.isAccessible then some result else scanList t rest

/-- The testIP result discoverRouter computes for a curated candidate. -/
def curatedResult (o : DiscoveryOracle) (options : NetworkScanOptions) (ip : String) :
    DiscoveredRouter :=
  testIP (o.probe ip) ip (curatedProbeOpts options)

/-- The testIP result discoverRouter computes for an extended candidate. -/
def extendedResult (o : DiscoveryOracle) (options : NetworkScanOptions) (ip : String) :
    DiscoveredRouter :=
  testIP (o.probe ip) ip (extendedProbeOpts options)

/-- discoverRouter: walk the curated list in order, return the first
accessible result; when none is accessible and includeExtended is set,
walk the extended list the same way; otherwise return null (none). -/
def discoverRouter (o : DiscoveryOracle) (options : NetworkScanOptions) :
    Option DiscoveredRouter :=
  match scanList (curatedResult o options) COMMON_ROUTER_IPS with
  | some r => some r
  | none =>
    if options.includeExtended.getD false then
      scanList (extendedResult o options) EXTENDED_IPS
    else none

/-- generateLocalIPRange: common gateway addresses .1 and .254 first, then
the range 2 to 253 with the (always-true) guard skipping 254. -/
def generateLocalIPRange (baseIP : String) : List String :=
  let gatewayFirst := [baseIP ++ ".1", baseIP ++ ".254"]
  gatewayFirst ++
    ((List.range' 2 252).filter (fun i => i != 254)).map
      (fun i => baseIP ++ ("." ++ toString i))

/-- The index order in which generateLocalIPRange emits host numbers. -/
def ipIndexOrder : List Nat := [1, 254] ++ List.range' 2 252

/-- The address suffixes generateLocalIPRange appends to the base. -/
def ipSuffixes : List String := ipIndexOrder.map (fun i => "." ++ toString i)

/-- A numeric code for a short string, used only to decide distinctness of
the concrete suffix list cheaply. -/
def stringCode (s : String) : Nat :=
  s.data.foldl (fun acc c => acc * 256 + c.toNat) 0

end NetworkScanService

theorem string_append_left_injective (a : String) : Function.Injective (fun s => a ++ s) := by
  intro x y h
  have h2 := congrArg String.data h
  simp only [String.data_append] at h2
  exact String.ext (List.append_cancel_left h2)

namespace NetworkScanService

theorem ipSuffixes_nodup : ipSuffixes.Nodup := by
  have h : (ipSuffixes.map stringCode).Nodup := by decide
  exact h.of_map stringCode

theorem ipIndexOrder_perm : ipIndexOrder.Perm (List.range' 1 254) := by decide

/-- The attempt loop never issues more fetches than its remaining budget. -/
theorem attemptLoop_count_le (fetch : Nat → Except JsError FetchResponse) :
    ∀ (attempt remaining : Nat), (attemptLoop fetch attempt remaining).2 ≤ remaining := by
  intro attempt remaining
  induction remaining generalizing attempt with
  | zero => simp [attemptLoop]
  | succ n ih =>
    simp only [attemptLoop]
    cases fetch attempt with
    | ok resp =>
      by_cases h : resp.status < 500
      · simp [h]
      · simpa [h] using Nat.succ_le_succ (ih (attempt + 1))
    | error e =>
      by_cases h : (e.code == JsErrorCode.econnrefused || e.code == JsErrorCode.ehostunreach) = true
      · simp [h]
      · simpa [h] using Nat.succ_le_succ (ih (attempt + 1))

/-- When every fetch in scope errors, the attempt loop accepts no response. -/
theorem attemptLoop_none_of_error (fetch : Nat → Except JsError FetchResponse)
    (h : ∀ a, ∃ e, fetch a = Except.error e) :
    ∀ (attempt remaining : Nat), (attemptLoop fetch attempt remaining).1 = none := by
  intro attempt remaining
  induction remaining generalizing attempt with
  | zero => simp [attemptLoop]
  | succ n ih =>
    obtain ⟨e, he⟩ := h attempt
    simp only [attemptLoop, he]
    by_cases hb : (e.code == JsErrorCode.econnrefused || e.code == JsErrorCode.ehostunreach) = true
    · simp [hb]
    · simpa [hb] using ih (attempt + 1)

/-- The sequential scan returns the entry at the lowest accessible index. -/
theorem scanList_eq_of_first (t : String → DiscoveredRouter) :
    ∀ (l : List String) (i : Nat) (hi : i < l.length),
      (t (l.get ⟨i, hi⟩)).isAccessible = true →
      (∀ j (hj : j < l.length), j < i → (t (l.get ⟨j, hj⟩)).isAccessible = false) →
      scanList t l = some (t (l.get ⟨i, hi⟩)) := by
  intro l
  induction l with
  | nil => intro i hi; exact absurd hi (by simp)
  | cons ip rest ih =>
    intro i hi hacc hbefore
    cases i with
    | zero =>
      simp only [List.get] at hacc ⊢
      simp [scanList, hacc]
    | succ n =>
      have h0 : (t ip).isAccessible = false := by
        have := hbefore 0 (by simp) (Nat.succ_pos n)
        simpa [List.get] using this
      simp only [List.get] at hacc ⊢
      simp only [scanList, h0, Bool.false_eq_true, if_false]
      exact ih n (Nat.lt_of_succ_lt_succ hi) hacc
        (fun j hj hjn => by
          have := hbefore (j + 1) (by simpa using Nat.succ_lt_succ hj) (Nat.succ_lt_succ hjn)
          simpa [List.get] using this)

/-- Whatever the sequential scan returns was accessible. -/
theorem scanList_isAccessible (t : String → DiscoveredRouter) :
    ∀ (l : List String) (r : DiscoveredRouter), scanList t l = some r → r.isAccessible = true := by
  intro l
  induction l with
  | nil => intro r h; simp [scanList] at h
  | cons ip rest ih =>
    intro r h
    simp only [scanList] at h
    by_cases hacc : (t ip).isAccessible = true
    · rw [if_pos hacc] at h
      cases h
      exact hacc
    · rw [if_neg hacc] at h
      exact ih r h

/-- When nothing in the list is accessible, the sequential scan yields none. -/
theorem scanList_none_of_all (t : String → DiscoveredRouter) :
    ∀ (l : List String), (∀ ip ∈ l, (t ip).isAccessible = false) → scanList t l = none := by
  intro l
  induction l with
  | nil => intro _; rfl
  | cons ip rest ih =>
    intro h
    have h0 : (t ip).isAccessible = false := h ip (by simp)
    simp only [scanList, h0, Bool.false_eq_true, if_false]
    exact ih (fun x hx => h x (by simp [hx]))

end NetworkScanService

open NetworkScanService

/-- C10: For every base prefix string, generateLocalIPRange returns exactly
254 distinct addresses, base.1 first and base.254 second followed by base.2
through base.253 in ascending order, and as a whole a permutation of base.1
through base.254 (each appearing exactly once). -/
theorem C10_generateLocalIPRange (base : String) :
    generateLocalIPRange base
      = [base ++ ".1", base ++ ".254"]
        ++ (List.range' 2 252).map (fun i => base ++ ("." ++ toString i))
    ∧ (generateLocalIPRange base).length = 254
    ∧ (generateLocalIPRange base).Nodup
    ∧ (generateLocalIPRange base).Perm
        ((List.range' 1 254).map (fun i => base ++ ("." ++ toString i))) := by
  refine ⟨by rfl, by rfl, ?_, ?_⟩
  · have hmap : generateLocalIPRange base = ipSuffixes.map (fun s => base ++ s) := by rfl
    rw [hmap]
    exact ipSuffixes_nodup.map (string_append_left_injective base)
  · have hg : generateLocalIPRange base
      = ipIndexOrder.map (fun i => base ++ ("." ++ toString i)) := by rfl
    rw [hg]
    exact ipIndexOrder_perm.map (fun i => base ++ ("." ++ toString i))

/-- C2: whenever a curated candidate at index i is accessible and every
candidate at a lower curated index is not, discoverRouter returns exactly
the testIP result of the index-i candidate.  In particular, when two or
more curated candidates are reachable the one with the lowest curated
index wins; the result is a pure function of the per-address probe
outcomes, so it cannot depend on any probe completion order. -/
theorem C2_discoverRouter_lowest_index (o : DiscoveryOracle) (options : NetworkScanOptions)
    (i : Nat) (hi : i < COMMON_ROUTER_IPS.length)
    (hacc : (curatedResult o options (COMMON_ROUTER_IPS.get ⟨i, hi⟩)).isAccessible = true)
    (hbefore : ∀ j (hj : j < COMMON_ROUTER_IPS.length), j < i →
      (curatedResult o options (COMMON_ROUTER_IPS.get ⟨j, hj⟩)).isAccessible = false) :
    discoverRouter o options
      = some (curatedResult o options (COMMON_ROUTER_IPS.get ⟨i, hi⟩)) := by
  unfold discoverRouter
  rw [scanList_eq_of_first (curatedResult o options) COMMON_ROUTER_IPS i hi hacc hbefore]

def abortError : JsError :=
  { name := "AbortError", code := JsErrorCode.noCode, message := "The operation was aborted." }

def refusedError : JsError :=
  { name := "FetchError", code := JsErrorCode.econnrefused,
    message := "connect ECONNREFUSED" }

def selfSignedError : JsError :=
  { name := "FetchError", code := JsErrorCode.certSelfSigned,
    message := "self signed certificate" }

def okHeadResponse : FetchResponse := { status := 200, body := "" }

def okProbeOracle : ProbeOracle :=
  { fetchHead := fun _ _ => Except.ok okHeadResponse
    fetchGet := fun _ => Except.error abortError
    elapsedMs := 10 }

def refusedProbeOracle : ProbeOracle :=
  { fetchHead := fun _ _ => Except.error refusedError
    fetchGet := fun _ => Except.error abortError
    elapsedMs := 10 }

def twoReachableOracle : DiscoveryOracle :=
  { probe := fun ip =>
      if ip == "192.168.0.1" || ip == "192.168.100.1" then okProbeOracle
      else refusedProbeOracle }

/-- C2 witness: with the curated candidates at indexes 1 and 7 reachable
and index 0 unreachable, discoverRouter returns the index-1 result. -/
theorem C2_witness :
    (curatedResult twoReachableOracle {} (COMMON_ROUTER_IPS.get ⟨1, by decide⟩)).isAccessible = true
    ∧ (curatedResult twoReachableOracle {}
        (COMMON_ROUTER_IPS.get ⟨7, by decide⟩)).isAccessible = true
    ∧ discoverRouter twoReachableOracle {}
        = some (curatedResult twoReachableOracle {} (COMMON_ROUTER_IPS.get ⟨1, by decide⟩)) := by
  refine ⟨by decide, by decide, ?_⟩
  exact C2_discoverRouter_lowest_index twoReachableOracle {} 1 (by decide) (by decide)
    (fun j hj hj1 => by
      have hj0 : j = 0 := Nat.lt_one_iff.mp hj1
      subst hj0
      have hip : COMMON_ROUTER_IPS.get ⟨0, hj⟩ = "192.168.1.1" := rfl
      rw [hip]
      decide)

/-- C3 (amended): a certificate-validation failure on an HTTPS probe is
treated like every other non-refused transport error; when every HEAD
fetch of a probe errors (certificate errors included), testIP returns
isAccessible = false, and no certificateAnomaly field exists on the
result. -/
theorem C3_cert_error_not_reachable (o : ProbeOracle) (ip : String)
    (options : NetworkScanOptions)
    (h : ∀ p a, ∃ e, o.fetchHead p a = Except.error e) :
    (testIP o ip options).isAccessible = false := by
  unfold testIP testIPRun
  have h0 := attemptLoop_none_of_error (o.fetchHead 0) (h 0) 1 (options.retries.getD 1)
  have h1 := attemptLoop_none_of_error (o.fetchHead 1) (h 1) 1 (options.retries.getD 1)
  simp [h0, h1]

def certProbeOracle : ProbeOracle :=
  { fetchHead := fun p _ =>
      if p == 0 then Except.error refusedError else Except.error selfSignedError
    fetchGet := fun _ => Except.error abortError
    elapsedMs := 5 }

/-- C3 counterexample: an HTTPS probe whose transport fails with a
self-signed-certificate error yields isAccessible = false, not the
claimed reachable = true with certificateAnomaly set. -/
theorem C3_counterexample :
    certProbeOracle.fetchHead 1 1 = Except.error selfSignedError
    ∧ (testIP certProbeOracle "192.168.1.1" {}).isAccessible = false := ⟨rfl, rfl⟩

/-- C3 witness for the amended statement at the concrete oracle. -/
theorem C3_witness :
    (∀ p a, ∃ e, certProbeOracle.fetchHead p a = Except.error e)
    ∧ (testIP certProbeOracle "192.168.1.1" {}).isAccessible = false := by
  have h : ∀ p a, ∃ e, certProbeOracle.fetchHead p a = Except.error e := by
    intro p a
    cases p with
    | zero => exact ⟨refusedError, rfl⟩
    | succ n => exact ⟨selfSignedError, rfl⟩
  exact ⟨h, C3_cert_error_not_reachable certProbeOracle "192.168.1.1" {} h⟩

/-- C6: discoverRouter never returns a result whose isAccessible flag is
false, and when no curated candidate (and, if the extended scan is
enabled, no extended candidate) is accessible it returns none rather than
an error: the embedding is a total function into Option. -/
theorem C6_discoverRouter_no_inaccessible (o : DiscoveryOracle) (options : NetworkScanOptions) :
    (∀ r, discoverRouter o options = some r → r.isAccessible = true)
    ∧ ((∀ ip ∈ COMMON_ROUTER_IPS, (curatedResult o options ip).isAccessible = false) →
       (options.includeExtended.getD false = true →
         ∀ ip ∈ EXTENDED_IPS, (extendedResult o options ip).isAccessible = false) →
       discoverRouter o options = none) := by
  constructor
  · intro r h
    unfold discoverRouter at h
    cases hc : scanList (curatedResult o options) COMMON_ROUTER_IPS with
    | some r0 =>
      rw [hc] at h
      injection h with h2
      rw [← h2]
      exact scanList_isAccessible (curatedResult o options) COMMON_ROUTER_IPS r0 hc
    | none =>
      rw [hc] at h
      by_cases hext : options.includeExtended.getD false = true
      · rw [if_pos hext] at h
        exact scanList_isAccessible (extendedResult o options) EXTENDED_IPS r h
      · rw [if_neg hext] at h
        exact absurd h (by simp)
  · intro hcur hext
    unfold discoverRouter
    rw [scanList_none_of_all (curatedResult o options) COMMON_ROUTER_IPS hcur]
    by_cases he : options.includeExtended.getD false = true
    · rw [if_pos he]
      exact scanList_none_of_all (extendedResult o options) EXTENDED_IPS (hext he)
    · rw [if_neg he]

def allRefusedOracle : DiscoveryOracle := { probe := fun _ => refusedProbeOracle }

/-- C6 witness: with every candidate refusing connections and the extended
scan enabled, discoverRouter returns none. -/
theorem C6_witness :
    (∀ ip ∈ COMMON_ROUTER_IPS,
      (curatedResult allRefusedOracle { includeExtended := some true } ip).isAccessible = false)
    ∧ discoverRouter allRefusedOracle { includeExtended := some true } = none := by
  refine ⟨by decide, ?_⟩
  exact (C6_discoverRouter_no_inaccessible allRefusedOracle { includeExtended := some true }).2
    (by decide) (fun _ => by decide)

/-- C8 (amended): within one testIP call the number of HEAD fetches per
protocol is bounded by the retries option (default 1): with default
options at most one attempt per address-protocol pair, but a retries value
above 1 makes the loop retry a retryable failed attempt internally. -/
theorem C8_attempts_bounded_by_retries (o : ProbeOracle) (ip : String)
    (options : NetworkScanOptions) :
    (testIPRun o ip options).2.1 ≤ options.retries.getD 1
    ∧ (testIPRun o ip options).2.2 ≤ options.retries.getD 1 := by
  have h0 := attemptLoop_count_le (o.fetchHead 0) 1 (options.retries.getD 1)
  have h1 := attemptLoop_count_le (o.fetchHead 1) 1 (options.retries.getD 1)
  unfold testIPRun
  cases hc : (attemptLoop (o.fetchHead 0) 1 (options.retries.getD 1)).1 with
  | some resp =>
    simp only [hc]
    exact ⟨h0, Nat.zero_le _⟩
  | none =>
    cases hc2 : (attemptLoop (o.fetchHead 1) 1 (options.retries.getD 1)).1 with
    | some resp =>
      simp only [hc, hc2]
      exact ⟨h0, h1⟩
    | none =>
      simp only [hc, hc2]
      exact ⟨h0, h1⟩

def timeoutProbeOracle : ProbeOracle :=
  { fetchHead := fun _ _ => Except.error abortError
    fetchGet := fun _ => Except.error abortError
    elapsedMs := 3000 }

/-- C8 counterexample: with retries set to 2 and every attempt timing out,
testIP issues two HEAD fetches on the http protocol alone, refuting the
claim that at most one request attempt is ever issued per
address-protocol pair for every options value. -/
theorem C8_counterexample :
    ¬ ((testIPRun timeoutProbeOracle "192.168.1.1" { retries := some 2 }).2.1 ≤ 1) := by
  decide

namespace SmartRouterAI

/-- One suggested credential from the analysis step
(username/password/reason). -/
structure SuggestedCredential where
  username : String
  password : String
  reason : String
deriving DecidableEq

/-- The workingCredentials payload of a successful smart login. -/
structure WorkingCredentials where
  username : String
  password : String
deriving DecidableEq

/-- The data payload of a SmartRouterResult. -/
structure SmartRouterData where
  ipAddress : String
  brand : Option String := none
  workingCredentials : Option WorkingCredentials := none
  suggestedCredentials : Option (List SuggestedCredential) := none
deriving DecidableEq

/-- SmartRouterResult from smart-router-ai.ts. -/
structure SmartRouterResult where
  success : Bool
  message : String
  data : Option SmartRouterData := none
  duration : Option Nat := none
  aiCost : Option Float := none

/-- The flat per-call cost constant the source attaches to AI flows. -/
def geminiFlashCost : Float := 0.01

/-- How a JS template literal renders a possibly-undefined brand. -/
def jsBrandText : Option String → String
  | some b => b
  | none => "undefined"

/-- Oracle for one testCredentials call: the outcome of the GET carrying
the Basic authorization header built from the username and password. -/
structure CredOracle where
  response : Except JsError FetchResponse

/-- The admin-panel indicator check of testCredentials: the lowercased
body must contain admin, settings, configuration or wireless. -/
def adminTokenFound (text : String) : Bool :=
  let lower := jsToLower text
  jsIncludes lower "admin" || jsIncludes lower "settings" ||
    jsIncludes lower "configuration" || jsIncludes lower "wireless"

/-- The success/details pair testCredentials returns. -/
structure CredTestAnswer where
  success : Bool
  details : String
deriving DecidableEq

/-- The try-block of testCredentials: await the fetch (a rejection
propagates out of the try-block), then classify: a 200 whose body holds an
admin-interface token is a success, anything else reports the status as
rejected. -/
def testCredentialsBody (o : CredOracle) : Except JsError CredTestAnswer :=
  match o.response with
  | Except.error e => Except.error e
  | Except.ok resp =>
    if resp.status == 200 && adminTokenFound resp.body then
      Except.ok { success := true, details := "Login successful - found admin interface" }
    else
      Except.ok
        { success := false
          details := "HTTP " ++ toString resp.status ++ " - credentials rejected" }

/-- The catch-handler of testCredentials. -/
def credFailureAnswer (e : JsError) : CredTestAnswer :=
  { success := false, details := "Connection failed: " ++ e.message }

/-- testCredentials: the try-block with its catch folded in. -/
def testCredentials (o : CredOracle) : CredTestAnswer :=
  match testCredentialsBody o with
  | Except.ok r => r
  | Except.error e => credFailureAnswer e

/-- Except-level semantics of testCredentials. -/
def testCredentialsE (o : CredOracle) : Except JsError CredTestAnswer :=
  jsCatch (testCredentialsBody o) credFailureAnswer

/-- The JSON payload shape read off the Gemini response:
candidates[0].content.parts[0].text, or none when that path is absent
(reading it then throws a TypeError). -/
structure GemJson where
  candidatesText : Option String
deriving DecidableEq

/-- The HTTP response of the Gemini call: the ok flag, status, the error
text read when not ok, and the parsed JSON body (none models a rejected
response.json()). -/
structure GemHttpResponse where
  ok : Bool
  status : Nat
  errorText : String
  json : Option GemJson
deriving DecidableEq

/-- Oracle for callGeminiDirectly: the GOOGLE_API_KEY environment variable
and the fetch outcome of the API call. -/
structure GeminiOracle where
  apiKey : Option String
  response : Except JsError GemHttpResponse

def missingKeyError : JsError :=
  { name := "Error", code := JsErrorCode.noCode,
    message := "GOOGLE_API_KEY environment variable not found" }

def jsonRejectedError : JsError :=
  { name := "FetchError", code := JsErrorCode.noCode,
    message := "invalid json response body" }

/-- callGeminiDirectly: throws when the API key is missing, when the fetch
rejects, when the API answers non-ok (with the status and error text in
the message), or when reading the JSON body fails; otherwise yields the
parsed payload. -/
def callGeminiDirectlyE (g : GeminiOracle) : Except JsError GemJson :=
  match g.apiKey with
  | none => Except.error missingKeyError
  | some _ =>
    match g.response with
    | Except.error e => Except.error e
    | Except.ok resp =>
      if resp.ok = false then
        Except.error
          { name := "Error"
            code := JsErrorCode.noCode
            message := "Gemini API error: " ++ toString resp.status ++ " - " ++ resp.errorText }
      else
        match resp.json with
        | none => Except.error jsonRejectedError
        | some j => Except.ok j

/-- A parsed analysis object: the JSON fields the source reads (brand may
be absent; credentials may be absent, in which case reading
credentials.length throws). -/
structure ParsedAnalysis where
  brand : Option String := none
  credentials : Option (List SuggestedCredential) := none
deriving DecidableEq

/-- The fixed fallback guess list, in rank order. -/
def fallbackCredentials : List SuggestedCredential :=
  [{ username := "admin", password := "admin", reason := "Most common default" },
   { username := "admin", password := "password", reason := "Common alternative" },
   { username := "admin", password := "", reason := "Blank password" }]

/-- The fallback analysis object (brand Unknown, the fixed guesses). -/
def fallbackAnalysis : ParsedAnalysis :=
  { brand := some "Unknown", credentials := some fallbackCredentials }

def lbrace : Char := Char.ofNat 123

def rbrace : Char := Char.ofNat 125

/-- The suffix of a character list starting at its first occurrence of c. -/
def dropUntilChar (c : Char) : List Char → Option (List Char)
  | [] => none
  | a :: t => if a == c then some (a :: t) else dropUntilChar c t

/-- The greedy brace-block regex match of the source: the substring from
the first opening brace through the last closing brace after it, if any
exists. -/
def extractJsonBlock (s : String) : Option String :=
  match dropUntilChar lbrace s.data with
  | none => none
  | some tail =>
    match tail with
    | [] => none
    | _ :: rest =>
      match dropUntilChar rbrace rest.reverse with
      | none => none
      | some revTail => some (String.mk (lbrace :: revTail.reverse))

/-- The parse step of analyzeAndSuggestCredentials: extract a brace block
and JSON-parse it; either failure routes to the fixed fallback analysis.
JSON.parse is a host primitive and is supplied by the oracle. -/
def aiParseStep (parseJson : String → Option ParsedAnalysis) (aiResponse : String) :
    ParsedAnalysis :=
  match extractJsonBlock aiResponse with
  | none => fallbackAnalysis
  | some jsonText =>
    match parseJson jsonText with
    | none => fallbackAnalysis
    | some a => a

/-- Oracle for analyzeAndSuggestCredentials: the landing-page fetch, the
Gemini call, the JSON.parse host primitive and elapsed time.  The landing
page HTML and headers feed only the prompt handed to the collaborator, so
they influence the run only through the Gemini oracle. -/
structure AnalyzeOracle where
  landing : Except JsError FetchResponse
  gemini : GeminiOracle
  parseJson : String → Option ParsedAnalysis
  elapsedMs : Nat

def typeErrorCandidates : JsError :=
  { name := "TypeError", code := JsErrorCode.noCode,
    message := "Cannot read properties of undefined (reading content)" }

def typeErrorCredentials : JsError :=
  { name := "TypeError", code := JsErrorCode.noCode,
    message := "Cannot read properties of undefined (reading length)" }

/-- The success result the analyze step builds: the message reads
credentials.length, and the data carries the suggested list. -/
def analysisSuccess (o : AnalyzeOracle) (ipAddress : String) (brand : Option String)
    (creds : List SuggestedCredential) : SmartRouterResult :=
  { success := true
    message := "AI identified " ++ jsBrandText brand ++ " router with "
      ++ toString creds.length ++ " suggested credentials"
    data := some { ipAddress := ipAddress, brand := brand, suggestedCredentials := some creds }
    duration := some o.elapsedMs
    aiCost := some geminiFlashCost }

/-- The try-block of analyzeAndSuggestCredentials: await the landing-page
fetch, call Gemini, read the candidate text (a TypeError when the shape is
absent), run the parse step with its fallback, then read
credentials.length (a TypeError when credentials is absent) and build the
success result.  Every await of a rejected promise propagates out. -/
def analyzeBodyE (o : AnalyzeOracle) (ipAddress : String) : Except JsError SmartRouterResult :=
  match o.landing with
  | Except.error e => Except.error e
  | Except.ok _landingPage =>
    match callGeminiDirectlyE o.gemini with
    | Except.error e => Except.error e
    | Except.ok gem =>
      match gem.candidatesText with
      | none => Except.error typeErrorCandidates
      | some aiResponse =>
        let analysis := aiParseStep o.parseJson aiResponse
        match analysis.credentials with
        | none => Except.error typeErrorCredentials
        | some creds => Except.ok (analysisSuccess o ipAddress analysis.brand creds)

/-- The catch-handler of analyzeAndSuggestCredentials. -/
def analyzeFailure (o : AnalyzeOracle) (e : JsError) : SmartRouterResult :=
  { success := false
    message := "AI analysis failed: " ++ e.message
    duration := some o.elapsedMs }

/-- analyzeAndSuggestCredentials: the try-block with its catch folded in. -/
def analyzeAndSuggestCredentials (o : AnalyzeOracle) (ipAddress : String) : SmartRouterResult :=
  match analyzeBodyE o ipAddress with
  | Except.ok r => r
  | Except.error e => analyzeFailure o e

/-- Except-level semantics of analyzeAndSuggestCredentials. -/
def analyzeAndSuggestCredentialsE (o : AnalyzeOracle) (ipAddress : String) :
    Except JsError SmartRouterResult :=
  jsCatch (analyzeBodyE o ipAddress) (analyzeFailure o)

/-- Oracle for smartLogin: the analyze oracle plus one credential-test
fetch outcome per test call (indexed by call order) and elapsed time. -/
structure SmartOracle where
  analyze : AnalyzeOracle
  credResponses : Nat → Except JsError FetchResponse
  elapsedMs : Nat

/-- The success result smartLogin builds from the guess that worked. -/
def credSuccessResult (o : SmartOracle) (ipAddress : String) (brand : Option String)
    (allCreds : List SuggestedCredential) (cred : SuggestedCredential) : SmartRouterResult :=
  { success := true
    message := "Successfully logged in to " ++ jsBrandText brand ++ " router"
    data := some
      { ipAddress := ipAddress
        brand := brand
        workingCredentials := some { username := cred.username, password := cred.password }
        suggestedCredentials := some allCreds }
    duration := some o.elapsedMs
    aiCost := some geminiFlashCost }

/-- The result smartLogin builds when no guess worked. -/
def noCredsResult (o : SmartOracle) (ipAddress : String) (brand : Option String)
    (allCreds : List SuggestedCredential) : SmartRouterResult :=
  { success := false
    message := "Could not find working credentials for " ++ jsBrandText brand ++ " router"
    data := some
      { ipAddress := ipAddress
        brand := brand
        suggestedCredentials := some allCreds }
    duration := some o.elapsedMs
    aiCost := some geminiFlashCost }

/-- The sequential guess loop of smartLogin, instrumented with the number
of credential tests performed: strictly in list order, stopping at the
first success. -/
def tryCreds (o : SmartOracle) (ipAddress : String) (brand : Option String)
    (allCreds : List SuggestedCredential) :
    List SuggestedCredential → Nat → SmartRouterResult × Nat
  | [], k => (noCredsResult o ipAddress brand allCreds, k)
  | cred :: rest, k =>
    let t := testCredentials { response := o.credResponses k }
    if t.success then (credSuccessResult o ipAddress brand allCreds cred, k + 1)
    else tryCreds o ipAddress brand allCreds rest (k + 1)

/-- The guess loop at the Except level, awaiting each testCredentials
promise. -/
def tryCredsE (o : SmartOracle) (ipAddress : String) (brand : Option String)
    (allCreds : List SuggestedCredential) :
    List SuggestedCredential → Nat → Except JsError (SmartRouterResult × Nat)
  | [], k => Except.ok (noCredsResult o ipAddress brand allCreds, k)
  | cred :: rest, k =>
    match testCredentialsE { response := o.credResponses k } with
    | Except.error e => Except.error e
    | Except.ok t =>
      if t.success then Except.ok (credSuccessResult o ipAddress brand allCreds cred, k + 1)
      else tryCredsE o ipAddress brand allCreds rest (k + 1)

/-- The try-block of smartLogin: run the analyze step; pass its result
through unchanged when it failed or carries no suggested-credential list;
otherwise walk the suggested guesses in rank order. -/
def smartLoginBodyE (o : SmartOracle) (ipAddress : String) :
    Except JsError (SmartRouterResult × Nat) :=
  match analyzeAndSuggestCredentialsE o.analyze ipAddress with
  | Except.error e => Except.error e
  | Except.ok analysis =>
    if analysis.success = false then Except.ok (analysis, 0)
    else
      match analysis.data with
      | none => Except.ok (analysis, 0)
      | some d =>
        match d.suggestedCredentials with
        | none => Except.ok (analysis, 0)
        | some creds => tryCredsE o ipAddress d.brand creds creds 0

/-- The catch-handler of smartLogin. -/
def smartLoginFailure (o : SmartOracle) (e : JsError) : SmartRouterResult :=
  { success := false
    message := "Smart login failed: " ++ e.message
    duration := some o.elapsedMs }

/-- smartLogin together with the number of credential tests it performed. -/
def smartLoginRun (o : SmartOracle) (ipAddress : String) : SmartRouterResult × Nat :=
  match smartLoginBodyE o ipAddress with
  | Except.ok rc => rc
  | Except.error e => (smartLoginFailure o e, 0)

/-- smartLogin: the returned SmartRouterResult. -/
def smartLogin (o : SmartOracle) (ipAddress : String) : SmartRouterResult :=
  (smartLoginRun o ipAddress).1

/-- Except-level semantics of smartLogin. -/
def smartLoginE (o : SmartOracle) (ipAddress : String) : Except JsError SmartRouterResult :=
  jsCatch ((smartLoginBodyE o ipAddress).map Prod.fst) (smartLoginFailure o)

/-- The convenient fully reduced form of smartLoginRun. -/
def smartLoginPlain (o : SmartOracle) (ipAddress : String) : SmartRouterResult × Nat :=
  let analysis := analyzeAndSuggestCredentials o.analyze ipAddress
  if analysis.success = false then (analysis, 0)
  else
    match analysis.data with
    | none => (analysis, 0)
    | some d =>
      match d.suggestedCredentials with
      | none => (analysis, 0)
      | some creds => tryCreds o ipAddress d.brand creds creds 0

/-- The catch of testCredentials always lands in ok. -/
theorem testCredentialsE_eq (o : CredOracle) :
    testCredentialsE o = Except.ok (testCredentials o) := by
  unfold testCredentialsE testCredentials jsCatch
  cases testCredentialsBody o <;> rfl

/-- The catch of analyzeAndSuggestCredentials always lands in ok. -/
theorem analyzeE_eq (o : AnalyzeOracle) (ip : String) :
    analyzeAndSuggestCredentialsE o ip = Except.ok (analyzeAndSuggestCredentials o ip) := by
  unfold analyzeAndSuggestCredentialsE analyzeAndSuggestCredentials jsCatch
  cases analyzeBodyE o ip <;> rfl

/-- The guess loop never rejects: every testCredentials promise resolves. -/
theorem tryCredsE_eq (o : SmartOracle) (ip : String) (brand : Option String)
    (allCreds : List SuggestedCredential) :
    ∀ (l : List SuggestedCredential) (k : Nat),
      tryCredsE o ip brand allCreds l k = Except.ok (tryCreds o ip brand allCreds l k) := by
  intro l
  induction l with
  | nil => intro k; rfl
  | cons c rest ih =>
    intro k
    unfold tryCredsE tryCreds
    rw [testCredentialsE_eq]
    by_cases h : (testCredentials { response := o.credResponses k }).success = true
    · simp [h]
    · simp [h, ih (k + 1)]

/-- The smartLogin try-block always resolves, to the plain form. -/
theorem smartLoginBodyE_eq (o : SmartOracle) (ip : String) :
    smartLoginBodyE o ip = Except.ok (smartLoginPlain o ip) := by
  unfold smartLoginBodyE smartLoginPlain
  rw [analyzeE_eq]
  by_cases h : (analyzeAndSuggestCredentials o.analyze ip).success = false
  · simp [h]
  · cases hd : (analyzeAndSuggestCredentials o.analyze ip).data with
    | none => simp [h, hd]
    | some d =>
      cases hs : d.suggestedCredentials with
      | none => simp [h, hd, hs]
      | some creds => simp [h, hd, hs, tryCredsE_eq]

/-- smartLoginRun computes the plain form. -/
theorem smartLoginRun_eq (o : SmartOracle) (ip : String) :
    smartLoginRun o ip = smartLoginPlain o ip := by
  unfold smartLoginRun
  rw [smartLoginBodyE_eq]

/-- Evaluation of testCredentials on a delivered response. -/
theorem testCredentials_ok (o : CredOracle) (resp : FetchResponse)
    (hresp : o.response = Except.ok resp) :
    testCredentials o =
      if resp.status == 200 && adminTokenFound resp.body then
        { success := true, details := "Login successful - found admin interface" }
      else
        { success := false,
          details := "HTTP " ++ toString resp.status ++ " - credentials rejected" } := by
  by_cases h : (resp.status == 200 && adminTokenFound resp.body) = true
  · simp [testCredentials, testCredentialsBody, hresp, h]
  · simp [testCredentials, testCredentialsBody, hresp, h]

/-- The only ok value the analyze try-block produces is a success record. -/
theorem analyzeBodyE_ok_shape (o : AnalyzeOracle) (ip : String) (r : SmartRouterResult)
    (h : analyzeBodyE o ip = Except.ok r) :
    ∃ b creds, r = analysisSuccess o ip b creds := by
  unfold analyzeBodyE at h
  cases hl : o.landing with
  | error e => simp only [hl] at h; exact absurd h (by simp)
  | ok lp =>
    simp only [hl] at h
    cases hg : callGeminiDirectlyE o.gemini with
    | error e => simp only [hg] at h; exact absurd h (by simp)
    | ok gem =>
      simp only [hg] at h
      cases hc : gem.candidatesText with
      | none => simp only [hc] at h; exact absurd h (by simp)
      | some t =>
        simp only [hc] at h
        cases hcr : (aiParseStep o.parseJson t).credentials with
        | none => simp only [hcr] at h; exact absurd h (by simp)
        | some creds =>
          simp only [hcr] at h
          injection h with h2
          exact ⟨(aiParseStep o.parseJson t).brand, creds, h2.symm⟩

/-- A successful analyze result is a success record. -/
theorem analyze_success_shape (o : AnalyzeOracle) (ip : String)
    (h : (analyzeAndSuggestCredentials o ip).success = true) :
    ∃ b creds, analyzeAndSuggestCredentials o ip = analysisSuccess o ip b creds := by
  cases hb : analyzeBodyE o ip with
  | ok r =>
    have he : analyzeAndSuggestCredentials o ip = r := by
      unfold analyzeAndSuggestCredentials
      rw [hb]
    rw [he]
    exact analyzeBodyE_ok_shape o ip r hb
  | error e =>
    have he : analyzeAndSuggestCredentials o ip = analyzeFailure o e := by
      unfold analyzeAndSuggestCredentials
      rw [hb]
    rw [he] at h
    exact absurd h (by simp [analyzeFailure])

/-- The test counter never moves backwards. -/
theorem tryCreds_count_ge (o : SmartOracle) (ip : String) (brand : Option String)
    (allCreds : List SuggestedCredential) :
    ∀ (l : List SuggestedCredential) (k : Nat), k ≤ (tryCreds o ip brand allCreds l k).2 := by
  intro l
  induction l with
  | nil => intro k; simp [tryCreds]
  | cons c rest ih =>
    intro k
    unfold tryCreds
    by_cases h : (testCredentials { response := o.credResponses k }).success = true
    · simp [h]
    · simp only [h, if_false]
      exact Nat.le_trans (Nat.le_succ k) (ih (k + 1))

/-- A non-empty guess list forces at least one credential test. -/
theorem tryCreds_count_cons (o : SmartOracle) (ip : String) (brand : Option String)
    (allCreds : List SuggestedCredential) (c : SuggestedCredential)
    (rest : List SuggestedCredential) (k : Nat) :
    k + 1 ≤ (tryCreds o ip brand allCreds (c :: rest) k).2 := by
  unfold tryCreds
  by_cases h : (testCredentials { response := o.credResponses k }).success = true
  · simp [h]
  · simp only [h, if_false]
    exact tryCreds_count_ge o ip brand allCreds rest (k + 1)

/-- When the test at offset m succeeds, the loop performs at most m + 1
further tests beyond the start index. -/
theorem tryCreds_stops_at_success (o : SmartOracle) (ip : String) (brand : Option String)
    (allCreds : List SuggestedCredential) :
    ∀ (l : List SuggestedCredential) (k m : Nat), m < l.length →
      (testCredentials { response := o.credResponses (k + m) }).success = true →
      (tryCreds o ip brand allCreds l k).2 ≤ k + m + 1 := by
  intro l
  induction l with
  | nil => intro k m hm; exact absurd hm (by simp)
  | cons c rest ih =>
    intro k m hm hsucc
    unfold tryCreds
    by_cases h : (testCredentials { response := o.credResponses k }).success = true
    · simp only [h, if_true]
      show k + 1 ≤ k + m + 1
      omega
    · simp only [h, if_false]
      cases m with
      | zero =>
        rw [Nat.add_zero] at hsucc
        exact absurd hsucc h
      | succ m2 =>
        have h2 := ih (k + 1) m2 (Nat.lt_of_succ_lt_succ hm)
          (by
            have he : k + 1 + m2 = k + (m2 + 1) := by omega
            rw [he]
            exact hsucc)
        show (tryCreds o ip brand allCreds rest (k + 1)).2 ≤ k + (m2 + 1) + 1
        omega

/-- A successful loop result comes from some guess in the walked list. -/
theorem tryCreds_success_shape (o : SmartOracle) (ip : String) (brand : Option String)
    (allCreds : List SuggestedCredential) :
    ∀ (l : List SuggestedCredential) (k : Nat),
      ((tryCreds o ip brand allCreds l k).1).success = true →
      ∃ g ∈ l, (tryCreds o ip brand allCreds l k).1
        = credSuccessResult o ip brand allCreds g := by
  intro l
  induction l with
  | nil =>
    intro k h
    exact absurd h (by simp [tryCreds, noCredsResult])
  | cons c rest ih =>
    intro k h
    unfold tryCreds at h ⊢
    by_cases ht : (testCredentials { response := o.credResponses k }).success = true
    · simp only [ht, if_true] at h ⊢
      exact ⟨c, by simp, rfl⟩
    · simp only [ht, if_false] at h ⊢
      obtain ⟨g, hg, he⟩ := ih (k + 1) h
      exact ⟨g, by simp [hg], he⟩

end SmartRouterAI

open SmartRouterAI

/-- C1: testCredentials classifies success exactly when the delivered HTTP
response has status 200 and its body contains one of the case-insensitive
tokens admin, settings, configuration, wireless; a 200 without a token and
any non-200 status (401 and 403 included) yield success = false, as does a
transport error. -/
theorem C1_testCredentials_classification (o : CredOracle) :
    (∀ resp, o.response = Except.ok resp →
      ((testCredentials o).success = true ↔
        (resp.status = 200 ∧ adminTokenFound resp.body = true)))
    ∧ (∀ e, o.response = Except.error e → (testCredentials o).success = false) := by
  constructor
  · intro resp hresp
    rw [testCredentials_ok o resp hresp]
    by_cases h : (resp.status == 200 && adminTokenFound resp.body) = true
    · rw [if_pos h]
      simp only [Bool.and_eq_true, beq_iff_eq] at h
      simp [h]
    · rw [if_neg h]
      simp only [Bool.and_eq_true, beq_iff_eq] at h
      constructor
      · intro hfalse
        exact absurd hfalse (by simp)
      · intro hrt
        exact absurd ⟨hrt.1, hrt.2⟩ h
  · intro e he
    unfold testCredentials testCredentialsBody
    rw [he]
    rfl

def cred200Oracle : CredOracle :=
  { response := Except.ok { status := 200, body := "<html>Router Settings</html>" } }

/-- C1 witness: a 200 response whose body mentions Settings is classified
as a success. -/
theorem C1_witness :
    cred200Oracle.response
      = Except.ok { status := 200, body := "<html>Router Settings</html>" }
    ∧ (testCredentials cred200Oracle).success = true := by
  refine ⟨rfl, ?_⟩
  exact ((C1_testCredentials_classification cred200Oracle).1
    { status := 200, body := "<html>Router Settings</html>" } rfl).mpr ⟨rfl, by decide⟩

def gemOkNoJson : GeminiOracle :=
  { apiKey := some "test-key"
    response := Except.ok
      { ok := true, status := 200, errorText := ""
        json := some { candidatesText := some "no braces here" } } }

def analyzeFallbackOracle : AnalyzeOracle :=
  { landing := Except.ok { status := 200, body := "<html>login</html>" }
    gemini := gemOkNoJson
    parseJson := fun _ => none
    elapsedMs := 42 }

def smartSecondWorksOracle : SmartOracle :=
  { analyze := analyzeFallbackOracle
    credResponses := fun k =>
      if k == 1 then Except.ok { status := 200, body := "Router Configuration Page" }
      else Except.ok { status := 401, body := "" }
    elapsedMs := 77 }

/-- C4 (amended): only when the collaborator call succeeds and its text
output cannot be parsed as JSON (no brace block, or JSON.parse fails) does
the operation substitute the fixed fallback list admin/admin,
admin/password, admin/blank in that rank order and proceed to try
credentials; a collaborator call that errors instead fails the analyze
step, and smartLogin passes that failure through without testing any
credentials (see the counterexample). -/
theorem C4_fallback_on_unparseable (o : SmartOracle) (ip : String)
    (lp : FetchResponse) (gem : GemJson) (t : String)
    (hl : o.analyze.landing = Except.ok lp)
    (hg : callGeminiDirectlyE o.analyze.gemini = Except.ok gem)
    (hc : gem.candidatesText = some t)
    (hparse : extractJsonBlock t = none
      ∨ ∃ s, extractJsonBlock t = some s ∧ o.analyze.parseJson s = none) :
    (analyzeAndSuggestCredentials o.analyze ip).success = true
    ∧ (analyzeAndSuggestCredentials o.analyze ip).data
        = some { ipAddress := ip, brand := some "Unknown",
                 workingCredentials := none,
                 suggestedCredentials := some fallbackCredentials }
    ∧ 1 ≤ (smartLoginRun o ip).2 := by
  have hparse2 : aiParseStep o.analyze.parseJson t = fallbackAnalysis := by
    unfold aiParseStep
    cases hparse with
    | inl h => simp only [h]
    | inr h =>
      obtain ⟨s, hs, hn⟩ := h
      simp only [hs, hn]
  have hbody : analyzeBodyE o.analyze ip
      = Except.ok (analysisSuccess o.analyze ip (some "Unknown") fallbackCredentials) := by
    unfold analyzeBodyE
    simp only [hl, hg, hc, hparse2, fallbackAnalysis]
  have hana : analyzeAndSuggestCredentials o.analyze ip
      = analysisSuccess o.analyze ip (some "Unknown") fallbackCredentials := by
    unfold analyzeAndSuggestCredentials
    rw [hbody]
  refine ⟨by rw [hana]; rfl, by rw [hana]; rfl, ?_⟩
  rw [smartLoginRun_eq]
  unfold smartLoginPlain
  rw [hana]
  simp only [analysisSuccess]
  exact tryCreds_count_cons o ip (some "Unknown") fallbackCredentials _ _ 0

def gemApiFailOracle : GeminiOracle :=
  { apiKey := some "test-key"
    response := Except.ok
      { ok := false, status := 500, errorText := "Internal error", json := none } }

def smartGeminiDownOracle : SmartOracle :=
  { analyze :=
      { landing := Except.ok { status := 200, body := "<html>login</html>" }
        gemini := gemApiFailOracle
        parseJson := fun _ => none
        elapsedMs := 9 }
    credResponses := fun _ => Except.ok { status := 200, body := "admin" }
    elapsedMs := 9 }

/-- C4 counterexample: when the collaborator call errors (here a non-ok
API status), smartLogin fails the whole operation with zero credential
tests, even though the first fallback guess would have succeeded had the
fallback been substituted; the claim that a collaborator error triggers
the fallback is therefore false on the code. -/
theorem C4_counterexample :
    (smartLogin smartGeminiDownOracle "192.168.1.1").success = false
    ∧ (smartLoginRun smartGeminiDownOracle "192.168.1.1").2 = 0
    ∧ (testCredentials { response := smartGeminiDownOracle.credResponses 0 }).success
        = true := by
  refine ⟨by decide, by decide, by decide⟩

/-- C4 witness for the amended statement: an ok collaborator reply whose
text has no JSON block routes to the fallback and at least one credential
is then tested. -/
theorem C4_witness :
    smartSecondWorksOracle.analyze.landing
      = Except.ok { status := 200, body := "<html>login</html>" }
    ∧ callGeminiDirectlyE smartSecondWorksOracle.analyze.gemini
        = Except.ok { candidatesText := some "no braces here" }
    ∧ extractJsonBlock "no braces here" = none
    ∧ (analyzeAndSuggestCredentials smartSecondWorksOracle.analyze "10.0.0.1").success = true
    ∧ (analyzeAndSuggestCredentials smartSecondWorksOracle.analyze "10.0.0.1").data
        = some { ipAddress := "10.0.0.1", brand := some "Unknown",
                 workingCredentials := none,
                 suggestedCredentials := some fallbackCredentials }
    ∧ 1 ≤ (smartLoginRun smartSecondWorksOracle "10.0.0.1").2 := by
  have h := C4_fallback_on_unparseable smartSecondWorksOracle "10.0.0.1"
    { status := 200, body := "<html>login</html>" } { candidatesText := some "no braces here" }
    "no braces here" rfl rfl rfl (Or.inl (by decide))
  exact ⟨rfl, rfl, by decide, h.1, h.2.1, h.2.2⟩

/-- C5: guesses are tried strictly in rank order and iteration stops at
the first success: when the analysis of the run supplies the guess list
and the test of the guess at rank k (0-based) succeeds, smartLogin
performs at most k + 1 credential tests, so no guess at rank k + 1 or
later is ever attempted. -/
theorem C5_smartLogin_stops_at_first_success (o : SmartOracle) (ip : String)
    (d : SmartRouterData) (creds : List SuggestedCredential) (k : Nat)
    (hsucc : (analyzeAndSuggestCredentials o.analyze ip).success = true)
    (hd : (analyzeAndSuggestCredentials o.analyze ip).data = some d)
    (hcreds : d.suggestedCredentials = some creds)
    (hk : k < creds.length)
    (htest : (testCredentials { response := o.credResponses k }).success = true) :
    (smartLoginRun o ip).2 ≤ k + 1 := by
  rw [smartLoginRun_eq]
  unfold smartLoginPlain
  have hne : ¬((analyzeAndSuggestCredentials o.analyze ip).success = false) := by
    rw [hsucc]; simp
  rw [if_neg hne]
  simp only [hd, hcreds]
  have h := tryCreds_stops_at_success o ip d.brand creds creds 0 k hk
    (by rw [Nat.zero_add]; exact htest)
  simpa using h

/-- C5 witness: with the fallback list supplied and the rank-1 guess
succeeding, smartLogin performs at most two credential tests. -/
theorem C5_witness :
    (analyzeAndSuggestCredentials smartSecondWorksOracle.analyze "192.168.1.1").success = true
    ∧ (analyzeAndSuggestCredentials smartSecondWorksOracle.analyze "192.168.1.1").data
        = some { ipAddress := "192.168.1.1", brand := some "Unknown",
                 workingCredentials := none,
                 suggestedCredentials := some fallbackCredentials }
    ∧ 1 < fallbackCredentials.length
    ∧ (testCredentials { response := smartSecondWorksOracle.credResponses 1 }).success = true
    ∧ (smartLoginRun smartSecondWorksOracle "192.168.1.1").2 ≤ 2 := by
  refine ⟨by decide, by decide, by decide, by decide, ?_⟩
  exact C5_smartLogin_stops_at_first_success smartSecondWorksOracle "192.168.1.1"
    { ipAddress := "192.168.1.1", brand := some "Unknown",
      workingCredentials := none, suggestedCredentials := some fallbackCredentials }
    fallbackCredentials 1 (by decide) (by decide) (by decide) (by decide) (by decide)

/-- C7: a successful smartLogin result carries exactly one working
credential pair (the workingCredentials option holds a single
username/password record), and that pair comes from a guess in the
suggested list produced by the analyze step of the same run, which the
result itself also carries. -/
theorem C7_success_carries_guess_from_run (o : SmartOracle) (ip : String)
    (h : (smartLogin o ip).success = true) :
    ∃ dR credsList g aD,
      (smartLogin o ip).data = some dR
      ∧ (analyzeAndSuggestCredentials o.analyze ip).data = some aD
      ∧ aD.suggestedCredentials = some credsList
      ∧ dR.suggestedCredentials = some credsList
      ∧ g ∈ credsList
      ∧ dR.workingCredentials
          = some { username := g.username, password := g.password } := by
  unfold smartLogin at h ⊢
  rw [smartLoginRun_eq] at h ⊢
  unfold smartLoginPlain at h ⊢
  by_cases hs : (analyzeAndSuggestCredentials o.analyze ip).success = false
  · rw [if_pos hs] at h
    exact absurd (h.symm.trans hs) (by simp)
  · have hs2 : (analyzeAndSuggestCredentials o.analyze ip).success = true := by
      revert hs
      cases (analyzeAndSuggestCredentials o.analyze ip).success <;> simp
    obtain ⟨b, credsA, hshape⟩ := analyze_success_shape o.analyze ip hs2
    rw [if_neg hs] at h ⊢
    simp only [hshape, analysisSuccess] at h ⊢
    obtain ⟨g, hg, he⟩ := tryCreds_success_shape o ip b credsA credsA 0 h
    refine ⟨{ ipAddress := ip, brand := b
              workingCredentials := some { username := g.username, password := g.password }
              suggestedCredentials := some credsA },
            credsA, g,
            { ipAddress := ip, brand := b
              workingCredentials := none
              suggestedCredentials := some credsA },
            ?_, rfl, rfl, rfl, hg, rfl⟩
    rw [he]
    rfl

/-- C7 witness: the successful run at the concrete oracle carries the
working pair drawn from its own suggested list. -/
theorem C7_witness :
    (smartLogin smartSecondWorksOracle "192.168.1.1").success = true
    ∧ ∃ dR credsList g aD,
        (smartLogin smartSecondWorksOracle "192.168.1.1").data = some dR
        ∧ (analyzeAndSuggestCredentials smartSecondWorksOracle.analyze "192.168.1.1").data
            = some aD
        ∧ aD.suggestedCredentials = some credsList
        ∧ dR.suggestedCredentials = some credsList
        ∧ g ∈ credsList
        ∧ dR.workingCredentials
            = some { username := g.username, password := g.password } := by
  refine ⟨by decide, ?_⟩
  exact C7_success_carries_guess_from_run smartSecondWorksOracle "192.168.1.1" (by decide)

/-- C9: the public probing entry points never propagate an exception:
their Except-level semantics always resolve, and a failure of the
try-block is folded into a returned value with the error message captured
(Connection failed for testCredentials, a success = false result for
smartLogin when the analyze try-block throws). -/
theorem C9_no_exception_escapes (po : ProbeOracle) (co : CredOracle) (so : SmartOracle)
    (ip : String) (options : NetworkScanOptions) :
    (testConnectionE po ip options).isOk = true
    ∧ (testCredentialsE co).isOk = true
    ∧ (smartLoginE so ip).isOk = true
    ∧ (∀ e, testCredentialsBody co = Except.error e →
        testCredentials co = credFailureAnswer e)
    ∧ (∀ e, analyzeBodyE so.analyze ip = Except.error e →
        (smartLogin so ip).success = false) := by
  refine ⟨?_, ?_, ?_, ?_, ?_⟩
  · rfl
  · unfold testCredentialsE jsCatch
    cases testCredentialsBody co <;> rfl
  · unfold smartLoginE jsCatch
    cases (smartLoginBodyE so ip).map Prod.fst <;> rfl
  · intro e he
    unfold testCredentials
    rw [he]
  · intro e he
    have hana : analyzeAndSuggestCredentials so.analyze ip = analyzeFailure so.analyze e := by
      unfold analyzeAndSuggestCredentials
      rw [he]
    unfold smartLogin
    rw [smartLoginRun_eq]
    unfold smartLoginPlain
    rw [hana]
    rfl

def credErrorOracle : CredOracle := { response := Except.error abortError }

def geminiDownError : JsError :=
  { name := "Error", code := JsErrorCode.noCode,
    message := "Gemini API error: 500 - Internal error" }

/-- C9 witness: an erroring credential fetch folds into a Connection
failed answer, and an erroring collaborator call folds into a
success = false smartLogin result. -/
theorem C9_witness :
    testCredentialsBody credErrorOracle = Except.error abortError
    ∧ testCredentials credErrorOracle = credFailureAnswer abortError
    ∧ (smartLogin smartGeminiDownOracle "192.168.1.1").success = false := by
  have h := C9_no_exception_escapes okProbeOracle credErrorOracle smartGeminiDownOracle
    "192.168.1.1" {}
  refine ⟨rfl, h.2.2.2.1 abortError rfl, h.2.2.2.2 geminiDownError rfl⟩
